import Mathlib

/-!
Verification of the core behaviors of the Lumen browser shell (src/lumen.py):
the URL-substring ad-blocking matcher, the history and bookmark stores, the
tab-count invariant, URL normalization, and the incognito session model.
The definitions below are a shallow embedding, translated from the Python
source; the rendering engine, UI toolkit and the json library are external
collaborators, modelled only where the spec fixes their contract.
-/

namespace Lumen

/-- Prefix test on character lists: true when the first list is an initial
segment of the second. Building block for the Python substring operator. -/
def isPrefixL : List Char → List Char → Bool
  | [], _ => true
  | _ :: _, [] => false
  | a :: ps, b :: hs => a == b && isPrefixL ps hs

/-- The Python substring containment operator, p in h, on character lists:
true when p occurs contiguously somewhere in h. -/
def containsSub (p : List Char) : List Char → Bool
  | [] => isPrefixL p []
  | c :: hs => isPrefixL p (c :: hs) || containsSub p hs

/-- The blocklist matcher (spec 4.1; the decision inside
AdBlocker.interceptRequest, src/lumen.py line 54): block exactly when some
rule is a case-sensitive substring of the URL. -/
def shouldBlock (url : String) (rules : List String) : Bool :=
  rules.any (fun p => containsSub p.data url.data)

/-- The static blocklist built in AdBlocker (src/lumen.py lines 41-51). -/
def blocklist : List String :=
  ["doubleclick.net", "googlesyndication.com", "adservice.google.",
   "ads.youtube.com", "ads.yahoo.", "taboola.com", "outbrain.com",
   "facebook.com/tr/", "pixel."]

/-- The decision AdBlocker.interceptRequest passes to info.block
(src/lumen.py lines 53-57): true means the request is blocked. -/
def interceptRequest (url : String) : Bool :=
  shouldBlock url blocklist

theorem isPrefixL_iff (p h : List Char) : isPrefixL p h = true ↔ ∃ t, h = p ++ t := by
  induction p generalizing h with
  | nil => simp [isPrefixL]
  | cons a ps ih =>
    cases h with
    | nil => simp [isPrefixL]
    | cons b hs =>
      simp only [isPrefixL, Bool.and_eq_true, beq_iff_eq, ih, List.cons_append,
        List.cons.injEq]
      constructor
      · rintro ⟨rfl, t, rfl⟩
        exact ⟨t, rfl, rfl⟩
      · rintro ⟨t, rfl, rfl⟩
        exact ⟨rfl, t, rfl⟩

theorem containsSub_iff (p h : List Char) :
    containsSub p h = true ↔ ∃ s t, h = s ++ p ++ t := by
  induction h with
  | nil =>
    simp only [containsSub, isPrefixL_iff]
    constructor
    · rintro ⟨t, ht⟩
      exact ⟨[], t, by simpa using ht⟩
    · rintro ⟨s, t, ht⟩
      rcases List.append_eq_nil.mp ht.symm with ⟨h1, h2⟩
      rcases List.append_eq_nil.mp h1 with ⟨rfl, rfl⟩
      exact ⟨[], by simp⟩
  | cons c hs ih =>
    simp only [containsSub, Bool.or_eq_true, isPrefixL_iff, ih]
    constructor
    · rintro (⟨t, ht⟩ | ⟨s, t, ht⟩)
      · exact ⟨[], t, by simpa using ht⟩
      · exact ⟨c :: s, t, by simp [ht]⟩
    · rintro ⟨s, t, ht⟩
      cases s with
      | nil =>
        exact Or.inl ⟨t, by simpa using ht⟩
      | cons d ds =>
        simp only [List.cons_append, List.cons.injEq] at ht
        exact Or.inr ⟨ds, t, ht.2⟩

/-- C1: the matcher blocks a URL u under a rule sequence R exactly when some
rule r in R is a case-sensitive substring of u, and under the empty rule
sequence every URL is allowed. -/
theorem shouldBlock_iff_substring (u : String) (R : List String) :
    (shouldBlock u R = true ↔ ∃ r ∈ R, ∃ s t, u.data = s ++ r.data ++ t) ∧
    shouldBlock u [] = false := by
  constructor
  · simp [shouldBlock, List.any_eq_true, containsSub_iff]
  · rfl

/-- C2 as frozen is false: with rules doubleclick.net and pixel., the URL
https://example.com/pixelated.png is NOT blocked, because the literal
substring pixel. (with the trailing dot) does not occur in it. -/
theorem pixelated_not_blocked :
    shouldBlock ("https://example.com/pixelated.png") ["doubleclick.net", "pixel."] = false := by
  decide

/-- C2 amended: with rules doubleclick.net and pixel., the URL
https://ads.doubleclick.net/x is blocked, while
https://example.com/pixelated.png and https://example.com/ are allowed. -/
theorem adblock_scenario :
    shouldBlock ("https://ads.doubleclick.net/x") ["doubleclick.net", "pixel."] = true ∧
    shouldBlock ("https://example.com/pixelated.png") ["doubleclick.net", "pixel."] = false ∧
    shouldBlock ("https://example.com/") ["doubleclick.net", "pixel."] = false := by
  refine ⟨by decide, by decide, by decide⟩

/-- Modelled from the spec: the content of the bookmarks file as this layer
can observe it through open() plus json.load (both external to the
repository): the file may be absent, unreadable, hold malformed JSON, or
hold a well-formed JSON array of strings, represented by its value. -/
inductive FileState where
  | absent : FileState
  | unreadable : FileState
  | malformed : FileState
  | json (l : List String) : FileState
  deriving DecidableEq

/-- Modelled from the spec: json.load(open(path)) (external json library and
file I/O): yields the parsed array of strings on success and fails (raises)
in every other file state. -/
def jsonLoad : FileState → Option (List String)
  | FileState.json l => some l
  | _ => none

/-- Bookmark loading at startup (src/lumen.py lines 142-145): the
try/except around json.load yields the parsed list on success and the
empty list on any failure. -/
def loadBookmarks (fs : FileState) : List String :=
  (jsonLoad fs).getD []

/-- The window state this layer owns (src/lumen.py Browser.__init__):
the incognito flag, the in-memory history and bookmark lists, the open
tabs, the URL of the current view, the bookmarks-file state, and a log of
the bookmark-file writes this layer performs. -/
structure Browser where
  incognito : Bool
  history : List String
  bookmarks : List String
  tabs : List Nat
  currentUrl : String
  file : FileState
  writes : List (List String)
  deriving DecidableEq

/-- Browser.__init__ (src/lumen.py lines 84-147): history starts empty,
bookmarks are loaded from the shared file regardless of the incognito
flag, and exactly one initial tab is opened. -/
def mkBrowser (incognito : Bool) (fs : FileState) : Browser :=
  { incognito := incognito
    history := []
    bookmarks := loadBookmarks fs
    tabs := [0]
    currentUrl := ""
    file := fs
    writes := [] }

/-- Browser._on_url_changed (src/lumen.py lines 190-196): update the URL
bar, and append to history only when the window is not incognito and the
URL is not already present (exact string match). -/
def on_url_changed (b : Browser) (url : String) : Browser :=
  if !b.incognito then
    if !(b.history.contains url) then
      { b with currentUrl := url, history := b.history ++ [url] }
    else { b with currentUrl := url }
  else { b with currentUrl := url }

/-- Browser.add_bookmark (src/lumen.py lines 282-287): when the current URL
is non-empty and not already bookmarked, append it and dump the full list
to the bookmarks file; otherwise do nothing. -/
def add_bookmark (b : Browser) : Browser :=
  if b.currentUrl != "" && !(b.bookmarks.contains b.currentUrl) then
    { b with bookmarks := b.bookmarks ++ [b.currentUrl]
             file := FileState.json (b.bookmarks ++ [b.currentUrl])
             writes := b.writes ++ [b.bookmarks ++ [b.currentUrl]] }
  else b

/-- Browser.new_tab (src/lumen.py lines 198-220), restricted to the tab
list this layer owns: one more tab is added. -/
def new_tab (b : Browser) : Browser :=
  { b with tabs := b.tabs ++ [b.tabs.length] }

/-- Browser.close_tab (src/lumen.py lines 222-227): remove the tab at the
given index only when more than one tab is open. -/
def close_tab (b : Browser) (index : Nat) : Browser :=
  if b.tabs.length > 1 then { b with tabs := b.tabs.eraseIdx index } else b

/-- The UI and engine events this layer handles on a window. -/
inductive Event where
  | urlChanged (url : String) : Event
  | addBookmark : Event
  | newTab : Event
  | closeTab (index : Nat) : Event
  deriving DecidableEq

/-- Dispatch of one event to the handler translated from the source. -/
def step (b : Browser) : Event → Browser
  | Event.urlChanged u => on_url_changed b u
  | Event.addBookmark => add_bookmark b
  | Event.newTab => new_tab b
  | Event.closeTab i => close_tab b i

/-- A run of the window: fold a sequence of events over a state. -/
def run (b : Browser) (es : List Event) : Browser :=
  es.foldl step b

theorem contains_iff (l : List String) (a : String) : l.contains a = true ↔ a ∈ l := by
  simp [List.contains, List.elem_iff]

theorem on_url_changed_history (b : Browser) (u : String) :
    (on_url_changed b u).history =
      if b.incognito = false ∧ u ∉ b.history then b.history ++ [u] else b.history := by
  unfold on_url_changed
  cases hb : b.incognito <;> by_cases hm : u ∈ b.history <;> simp [hb, hm]

theorem on_url_changed_rest (b : Browser) (u : String) :
    (on_url_changed b u).incognito = b.incognito ∧
    (on_url_changed b u).bookmarks = b.bookmarks ∧
    (on_url_changed b u).file = b.file ∧
    (on_url_changed b u).writes = b.writes ∧
    (on_url_changed b u).tabs = b.tabs := by
  unfold on_url_changed
  cases hb : b.incognito <;> by_cases hm : u ∈ b.history <;> simp [hb, hm]

theorem add_bookmark_eq (b : Browser) :
    add_bookmark b =
      if b.currentUrl ≠ "" ∧ b.currentUrl ∉ b.bookmarks then
        { b with bookmarks := b.bookmarks ++ [b.currentUrl]
                 file := FileState.json (b.bookmarks ++ [b.currentUrl])
                 writes := b.writes ++ [b.bookmarks ++ [b.currentUrl]] }
      else b := by
  unfold add_bookmark
  by_cases h1 : b.currentUrl = "" <;> by_cases h2 : b.currentUrl ∈ b.bookmarks <;>
    simp [h1, h2]

theorem on_url_changed_nodup (b : Browser) (u : String) (h : b.history.Nodup) :
    (on_url_changed b u).history.Nodup := by
  rw [on_url_changed_history]
  split
  · rename_i hc
    refine h.append (List.nodup_singleton u) ?_
    intro a ha hau
    have hau2 : a = u := by simpa using hau
    subst hau2
    exact hc.2 ha
  · exact h

theorem step_nodup (b : Browser) (e : Event) (h : b.history.Nodup) :
    (step b e).history.Nodup := by
  cases e with
  | urlChanged u => exact on_url_changed_nodup b u h
  | addBookmark =>
    show (add_bookmark b).history.Nodup
    rw [add_bookmark_eq]
    split <;> simpa using h
  | newTab =>
    show (new_tab b).history.Nodup
    simpa [new_tab] using h
  | closeTab i =>
    show (close_tab b i).history.Nodup
    unfold close_tab
    split <;> simpa using h

theorem run_nodup (b : Browser) (es : List Event) (h : b.history.Nodup) :
    (run b es).history.Nodup := by
  induction es generalizing b with
  | nil => exact h
  | cons e es ih => exact ih (step b e) (step_nodup b e h)

/-- C3: over every event sequence from startup, the history list never
holds a duplicate entry (exact string match), and in an incognito window a
URL-changed event leaves the history unchanged. -/
theorem history_nodup_and_incognito (inc : Bool) (fs : FileState) (es : List Event) :
    (run (mkBrowser inc fs) es).history.Nodup ∧
    (∀ b : Browser, ∀ u : String, b.incognito = true →
      (on_url_changed b u).history = b.history) := by
  constructor
  · exact run_nodup _ es (by simp [mkBrowser])
  · intro b u h
    simp [on_url_changed, h]

/-- Witness for C3 at a concrete incognito run. -/
theorem history_nodup_and_incognito_witness :
    (run (mkBrowser true FileState.absent) [Event.urlChanged ("https://a.com")]).history.Nodup ∧
    (on_url_changed (mkBrowser true FileState.absent) ("https://a.com")).history
      = (mkBrowser true FileState.absent).history :=
  ⟨(history_nodup_and_incognito true FileState.absent [Event.urlChanged ("https://a.com")]).1,
   (history_nodup_and_incognito true FileState.absent []).2
      (mkBrowser true FileState.absent) ("https://a.com") rfl⟩

theorem add_bookmark_cond_eq (b : Browser) :
    (b.currentUrl != "" && !(b.bookmarks.contains b.currentUrl)) = true
      ↔ (b.currentUrl ≠ "" ∧ b.currentUrl ∉ b.bookmarks) := by
  simp [bne_iff_ne, contains_iff]

/-- C4: add_bookmark is a no-op when the current URL is empty or already
present (both the list and the file are unchanged); otherwise it appends
the URL once and writes the full list to the file as JSON; it is
idempotent, and when the URL was absent, two successive calls leave
exactly one entry for it. -/
theorem add_bookmark_idempotent (b : Browser) :
    ((b.currentUrl = "" ∨ b.currentUrl ∈ b.bookmarks) → add_bookmark b = b) ∧
    (b.currentUrl ≠ "" → b.currentUrl ∉ b.bookmarks →
      add_bookmark b =
        { b with bookmarks := b.bookmarks ++ [b.currentUrl]
                 file := FileState.json (b.bookmarks ++ [b.currentUrl])
                 writes := b.writes ++ [b.bookmarks ++ [b.currentUrl]] }) ∧
    add_bookmark (add_bookmark b) = add_bookmark b ∧
    (b.currentUrl ≠ "" → b.currentUrl ∉ b.bookmarks →
      (add_bookmark (add_bookmark b)).bookmarks.count b.currentUrl = 1) := by
  have hnoop : (b.currentUrl = "" ∨ b.currentUrl ∈ b.bookmarks) → add_bookmark b = b := by
    intro hcase
    rw [add_bookmark_eq, if_neg]
    rintro ⟨h1, h2⟩
    rcases hcase with hc | hc
    · exact h1 hc
    · exact h2 hc
  have happ : b.currentUrl ≠ "" → b.currentUrl ∉ b.bookmarks →
      add_bookmark b =
        { b with bookmarks := b.bookmarks ++ [b.currentUrl]
                 file := FileState.json (b.bookmarks ++ [b.currentUrl])
                 writes := b.writes ++ [b.bookmarks ++ [b.currentUrl]] } := by
    intro h1 h2
    rw [add_bookmark_eq, if_pos ⟨h1, h2⟩]
  have hidem : add_bookmark (add_bookmark b) = add_bookmark b := by
    by_cases h1 : b.currentUrl = ""
    · rw [hnoop (Or.inl h1), hnoop (Or.inl h1)]
    · by_cases h2 : b.currentUrl ∈ b.bookmarks
      · rw [hnoop (Or.inr h2), hnoop (Or.inr h2)]
      · rw [happ h1 h2, add_bookmark_eq]
        split
        · rename_i hc
          exact absurd (by simp) hc.2
        · rfl
  refine ⟨hnoop, happ, hidem, ?_⟩
  intro h1 h2
  rw [hidem, happ h1 h2]
  simp [List.count_append, List.count_eq_zero.mpr h2]

/-- Witness for C4: adding a fresh bookmark twice leaves one entry. -/
theorem add_bookmark_idempotent_witness :
    (add_bookmark (add_bookmark
        { mkBrowser false FileState.absent with currentUrl := "https://a.com" })).bookmarks.count
      ("https://a.com") = 1 :=
  (add_bookmark_idempotent
      { mkBrowser false FileState.absent with currentUrl := "https://a.com" }).2.2.2
    (by decide) (by simp [mkBrowser, loadBookmarks, jsonLoad])

/-- C5: bookmark loading never propagates an error: an absent, unreadable
or malformed file yields the empty list, and only a successful parse
yields the file contents. -/
theorem loadBookmarks_total :
    loadBookmarks FileState.absent = [] ∧
    loadBookmarks FileState.unreadable = [] ∧
    loadBookmarks FileState.malformed = [] ∧
    (∀ l : List String, loadBookmarks (FileState.json l) = l) ∧
    (∀ fs : FileState, ∀ l : List String, jsonLoad fs = some l → loadBookmarks fs = l) := by
  refine ⟨rfl, rfl, rfl, fun l => rfl, ?_⟩
  intro fs l h
  simp [loadBookmarks, h]

/-- Witness for C5 at a concrete well-formed file. -/
theorem loadBookmarks_total_witness :
    loadBookmarks (FileState.json ["https://a.com"]) = ["https://a.com"] :=
  loadBookmarks_total.2.2.2.2 (FileState.json ["https://a.com"]) ["https://a.com"] rfl

theorem step_file_inv (b : Browser) (e : Event)
    (h : loadBookmarks b.file = b.bookmarks) :
    loadBookmarks (step b e).file = (step b e).bookmarks := by
  cases e with
  | urlChanged u =>
    show loadBookmarks (on_url_changed b u).file = (on_url_changed b u).bookmarks
    rw [(on_url_changed_rest b u).2.2.1, (on_url_changed_rest b u).2.1]
    exact h
  | addBookmark =>
    show loadBookmarks (add_bookmark b).file = (add_bookmark b).bookmarks
    rw [add_bookmark_eq]
    split
    · simp [loadBookmarks, jsonLoad]
    · exact h
  | newTab =>
    show loadBookmarks (new_tab b).file = (new_tab b).bookmarks
    simpa [new_tab] using h
  | closeTab i =>
    show loadBookmarks (close_tab b i).file = (close_tab b i).bookmarks
    unfold close_tab
    split <;> simpa using h

/-- C6: bookmark persistence round-trips: after any event sequence from
startup (in particular after an add_bookmark on the loaded list), loading
the bookmarks file reproduces the in-memory bookmark list, order included. -/
theorem bookmarks_roundtrip (inc : Bool) (fs : FileState) (es : List Event) :
    loadBookmarks (run (mkBrowser inc fs) es).file = (run (mkBrowser inc fs) es).bookmarks := by
  have base : loadBookmarks (mkBrowser inc fs).file = (mkBrowser inc fs).bookmarks := rfl
  have : ∀ (b : Browser) (es : List Event), loadBookmarks b.file = b.bookmarks →
      loadBookmarks (run b es).file = (run b es).bookmarks := by
    intro b es h
    induction es generalizing b with
    | nil => exact h
    | cons e es ih => exact ih (step b e) (step_file_inv b e h)
  exact this _ es base

theorem eraseIdx_length_ge (l : List Nat) (i : Nat) :
    l.length - 1 ≤ (l.eraseIdx i).length := by
  induction l generalizing i with
  | nil => simp
  | cons x xs ih =>
    cases i with
    | zero => simp [List.eraseIdx]
    | succ j =>
      have := ih j
      simp only [List.eraseIdx, List.length_cons]
      omega

theorem step_tabs_ge_one (b : Browser) (e : Event) (h : 1 ≤ b.tabs.length) :
    1 ≤ (step b e).tabs.length := by
  cases e with
  | urlChanged u =>
    show 1 ≤ (on_url_changed b u).tabs.length
    rw [(on_url_changed_rest b u).2.2.2.2]
    exact h
  | addBookmark =>
    show 1 ≤ (add_bookmark b).tabs.length
    rw [add_bookmark_eq]
    split <;> simpa using h
  | newTab =>
    show 1 ≤ (new_tab b).tabs.length
    simp [new_tab]
  | closeTab i =>
    show 1 ≤ (close_tab b i).tabs.length
    unfold close_tab
    split
    · rename_i hlen
      have h2 := eraseIdx_length_ge b.tabs i
      simp only []
      omega
    · exact h

/-- C7: from startup (one tab), every sequence of events keeps the tab
count at least 1, and close_tab on a window with exactly one tab is a
no-op that changes nothing. -/
theorem tabs_at_least_one (inc : Bool) (fs : FileState) (es : List Event) :
    1 ≤ (run (mkBrowser inc fs) es).tabs.length ∧
    (∀ b : Browser, ∀ i : Nat, b.tabs.length = 1 → close_tab b i = b) := by
  constructor
  · have : ∀ (b : Browser) (es : List Event), 1 ≤ b.tabs.length →
        1 ≤ (run b es).tabs.length := by
      intro b es h
      induction es generalizing b with
      | nil => exact h
      | cons e es ih => exact ih (step b e) (step_tabs_ge_one b e h)
    exact this _ es (by simp [mkBrowser])
  · intro b i h
    unfold close_tab
    rw [if_neg]
    omega

/-- Witness for C7: closing the sole tab right after startup is a no-op. -/
theorem tabs_at_least_one_witness :
    1 ≤ (run (mkBrowser false FileState.absent) [Event.closeTab 0]).tabs.length ∧
    close_tab (mkBrowser false FileState.absent) 0 = mkBrowser false FileState.absent :=
  ⟨(tabs_at_least_one false FileState.absent [Event.closeTab 0]).1,
   (tabs_at_least_one false FileState.absent []).2 (mkBrowser false FileState.absent) 0 rfl⟩

/-- Modelled from the spec after Python str.strip: true on the ASCII
whitespace characters Python strips (space, tab, newline, carriage return,
vertical tab, form feed); non-ASCII Unicode whitespace is out of scope. -/
def pyIsSpace (c : Char) : Bool :=
  c == ' ' || c == '\t' || c == '\n' || c == '\r' || c == '\x0B' || c == '\x0C'

/-- Python str.strip(): drop whitespace from both ends. -/
def pyStrip (s : String) : String :=
  String.mk (((s.data.dropWhile pyIsSpace).reverse.dropWhile pyIsSpace).reverse)

/-- The scheme test in Browser.go_to_url (src/lumen.py line 240):
url.startswith on the pair http:// and https://. -/
def hasHttpScheme (l : List Char) : Bool :=
  isPrefixL ("http://".data) l || isPrefixL ("https://".data) l

/-- Browser.go_to_url normalization (src/lumen.py lines 238-242): the URL
string handed to the view after stripping and scheme prefixing. -/
def go_to_url (input : String) : String :=
  if !(hasHttpScheme (pyStrip input).data) then ("https://") ++ pyStrip input
  else pyStrip input

/-- C8 as frozen is false: an input carrying a scheme prefix but trailing
whitespace is not loaded unchanged, because go_to_url strips it first. -/
theorem go_to_url_strips_counterexample :
    go_to_url ("http://a.com ") = "http://a.com" ∧
    "http://a.com" ≠ "http://a.com " := by
  refine ⟨by decide, by decide⟩

/-- C8 amended: go_to_url first strips surrounding whitespace; the
stripped input is loaded unchanged when it starts with http:// or
https://, and otherwise https:// is prepended to the stripped input;
and the scheme test holds exactly when the stripped input literally
starts with one of those two prefixes. -/
theorem go_to_url_normalizes (s : String) :
    (hasHttpScheme (pyStrip s).data = true → go_to_url s = pyStrip s) ∧
    (hasHttpScheme (pyStrip s).data = false → go_to_url s = "https://" ++ pyStrip s) ∧
    (∀ l : List Char, hasHttpScheme l = true ↔
      (∃ t, l = "http://".data ++ t) ∨ ∃ t, l = "https://".data ++ t) := by
  refine ⟨?_, ?_, ?_⟩
  · intro h
    simp [go_to_url, h]
  · intro h
    simp [go_to_url, h]
  · intro l
    simp [hasHttpScheme, isPrefixL_iff]

/-- Witness for C8 at one input of each kind. -/
theorem go_to_url_normalizes_witness :
    go_to_url ("http://a.com ") = pyStrip ("http://a.com ") ∧
    go_to_url ("a.com") = "https://" ++ pyStrip ("a.com") :=
  ⟨(go_to_url_normalizes ("http://a.com ")).1 (by decide),
   (go_to_url_normalizes ("a.com")).2.1 (by decide)⟩

/-- Cookie policies this layer sets on the engine profile. -/
inductive CookiePolicy where
  | noPersistentCookies : CookiePolicy
  | forcePersistentCookies : CookiePolicy
  deriving DecidableEq

/-- The engine profile configuration this layer chooses
(src/lumen.py Browser._create_profile). -/
structure Profile where
  cachePath : Option String
  storagePath : Option String
  cookiePolicy : CookiePolicy
  userAgent : String
  deriving DecidableEq

/-- The fixed persistent profile root (src/lumen.py lines 140 and 159). -/
def profileRoot (home : String) : String :=
  home ++ "/.pyside_browser_profile"

/-- The fixed user-agent override (src/lumen.py lines 165-168). -/
def userAgentString : String :=
  "Mozilla/5.0 (Windows NT 10.0; Win64; x64; rv:122.0) Gecko/20100101 Firefox/122.0"

/-- Browser._create_profile (src/lumen.py lines 154-169): incognito gets an
ephemeral profile with no cache or storage path and no persistent cookies;
persistent mode points cache and storage under the fixed root and forces
persistent cookies. Both set the same user agent. -/
def create_profile (incognito : Bool) (home : String) : Profile :=
  if incognito then
    { cachePath := none
      storagePath := none
      cookiePolicy := CookiePolicy.noPersistentCookies
      userAgent := userAgentString }
  else
    { cachePath := some (profileRoot home ++ "/cache")
      storagePath := some (profileRoot home ++ "/storage")
      cookiePolicy := CookiePolicy.forcePersistentCookies
      userAgent := userAgentString }

theorem run_urlChanged_incognito (b : Browser) (urls : List String)
    (h : b.incognito = true) :
    (run b (urls.map Event.urlChanged)).history = b.history ∧
    (run b (urls.map Event.urlChanged)).writes = b.writes ∧
    (run b (urls.map Event.urlChanged)).file = b.file := by
  induction urls generalizing b with
  | nil => exact ⟨rfl, rfl, rfl⟩
  | cons u us ih =>
    have hstep : step b (Event.urlChanged u) = { b with currentUrl := u } := by
      show on_url_changed b u = { b with currentUrl := u }
      unfold on_url_changed
      simp [h]
    have ihb := ih { b with currentUrl := u } (by simpa using h)
    simpa [run, hstep] using ihb

/-- C9: in an incognito window, any sequence of page visits leaves the
history empty, performs no bookmark-file write, leaves the file state
untouched, and the incognito profile configures no on-disk cache or
storage path. -/
theorem incognito_no_trace (fs : FileState) (urls : List String) (home : String) :
    (run (mkBrowser true fs) (urls.map Event.urlChanged)).history = [] ∧
    (run (mkBrowser true fs) (urls.map Event.urlChanged)).writes = [] ∧
    (run (mkBrowser true fs) (urls.map Event.urlChanged)).file = fs ∧
    (create_profile true home).cachePath = none ∧
    (create_profile true home).storagePath = none := by
  have h := run_urlChanged_incognito (mkBrowser true fs) urls rfl
  exact ⟨h.1, h.2.1, h.2.2, rfl, rfl⟩

/-- C10: bookmark handling ignores the incognito flag: startup loads the
same shared file in both modes, and in an incognito window adding a fresh
non-empty current URL appends it, writes the full list back to the shared
file, and a later startup from that file (in either mode) sees it. -/
theorem incognito_bookmarks_shared (fs : FileState) (u : String)
    (h1 : u ≠ "") (h2 : u ∉ loadBookmarks fs) :
    (mkBrowser true fs).bookmarks = (mkBrowser false fs).bookmarks ∧
    (run (mkBrowser true fs) [Event.urlChanged u, Event.addBookmark]).bookmarks
      = loadBookmarks fs ++ [u] ∧
    (run (mkBrowser true fs) [Event.urlChanged u, Event.addBookmark]).file
      = FileState.json (loadBookmarks fs ++ [u]) ∧
    (∀ inc2 : Bool,
      u ∈ (mkBrowser inc2
        ((run (mkBrowser true fs) [Event.urlChanged u, Event.addBookmark]).file)).bookmarks) := by
  have hstep1 : step (mkBrowser true fs) (Event.urlChanged u)
      = { mkBrowser true fs with currentUrl := u } := by
    show on_url_changed (mkBrowser true fs) u = { mkBrowser true fs with currentUrl := u }
    unfold on_url_changed
    simp [mkBrowser]
  have hstep2 : step { mkBrowser true fs with currentUrl := u } Event.addBookmark
      = { mkBrowser true fs with
          currentUrl := u
          bookmarks := loadBookmarks fs ++ [u]
          file := FileState.json (loadBookmarks fs ++ [u])
          writes := [loadBookmarks fs ++ [u]] } := by
    show add_bookmark { mkBrowser true fs with currentUrl := u } = _
    rw [add_bookmark_eq]
    rw [if_pos]
    · simp [mkBrowser]
    · exact ⟨h1, h2⟩
  have hrun : run (mkBrowser true fs) [Event.urlChanged u, Event.addBookmark]
      = { mkBrowser true fs with
          currentUrl := u
          bookmarks := loadBookmarks fs ++ [u]
          file := FileState.json (loadBookmarks fs ++ [u])
          writes := [loadBookmarks fs ++ [u]] } := by
    show step (step (mkBrowser true fs) (Event.urlChanged u)) Event.addBookmark = _
    rw [hstep1, hstep2]
  refine ⟨rfl, ?_, ?_, ?_⟩
  · rw [hrun]
  · rw [hrun]
  · intro inc2
    rw [hrun]
    simp [mkBrowser, loadBookmarks, jsonLoad]

/-- Witness for C10 at a concrete fresh URL and absent file. -/
theorem incognito_bookmarks_shared_witness :
    (run (mkBrowser true FileState.absent) [Event.urlChanged ("https://a.com"), Event.addBookmark]).bookmarks
      = loadBookmarks FileState.absent ++ ["https://a.com"] :=
  (incognito_bookmarks_shared FileState.absent ("https://a.com") (by decide)
    (by simp [loadBookmarks, jsonLoad])).2.1

end Lumen
